import Mathlib

/-!
Shallow embedding of the TwinSight-AI synthetic asset lifecycle and physics
simulation engine: the bulk historical generator
(`src/scripts/data_seeder.py`, function `generate_lifecycle_data`) and the
real-time physics model (`src/modules/machines/motor.py`, class
`MotorSimulator`) together with the real-time driver
(`src/scripts/realtime_simulation.py`, function `run_simulation`).

Modelling conventions:
- Python floats are modelled as exact rationals (`ℚ`); decimal literals such
  as `0.02` are exact in `ℚ`.  The source's presentation-level `round(x, n)`
  calls on record fields are omitted (they are float formatting, not part of
  the computed physics).
- Python's global `random` module is modelled as a sequential stream of
  rationals (`Rng`): each library call (`random.random`, `random.uniform`,
  `random.randint`, `random.choice`) consumes exactly one stream element,
  interpreted as the unit draw `random() ∈ [0,1]` (the raw stream value is
  clamped into `[0,1]`, which is exactly the guarantee Python's generator
  provides).  Draws are threaded in the source's evaluation order,
  including short-circuit conditions that skip draws.
- `np.sin((hour - 6) * np.pi / 12)` is transcendental; it is modelled by an
  abstract environment table `Env.hourSin : ℕ → ℚ` indexed by the hour of
  day.  No claim depends on the numeric value of the sine.
- Wall-clock time (`datetime.now()`) is an explicit parameter; timestamps
  are minutes since an arbitrary epoch (`ℤ`).
- The sqlite collaborator is modelled as a telemetry sink whose batch write
  either atomically commits or fails; failure of the n-th flush attempt is
  decided by an oracle `fails : ℕ → Bool`.
-/

/-! ## Random number generator model -/

/-- Sequential stream of raw random values together with a cursor; models
the hidden state of Python's global `random` generator at the granularity
of one API call per draw. -/
structure Rng where
  stream : ℕ → ℚ
  idx : ℕ

/-- Clamp a raw stream value into the unit interval; models the contract
that `random.random()` returns a value in `[0, 1]`. -/
def unit01 (q : ℚ) : ℚ := max 0 (min 1 q)

/-- Draw one raw stream element. -/
def Rng.next (g : Rng) : ℚ × Rng := (g.stream g.idx, ⟨g.stream, g.idx + 1⟩)

/-- Model of `random.random()`: one unit draw in `[0,1]`. -/
def Rng.unit (g : Rng) : ℚ × Rng :=
  let r := g.next
  (unit01 r.1, r.2)

/-- Model of `random.uniform(a, b)`. -/
def Rng.uniform (g : Rng) (a b : ℚ) : ℚ × Rng :=
  let r := g.unit
  (a + (b - a) * r.1, r.2)

/-- Model of `random.randint(a, b)`: an integer in `[a, b]`. -/
def Rng.randint (g : Rng) (a b : ℤ) : ℤ × Rng :=
  let r := g.unit
  (min b (a + ⌊r.1 * ((b : ℚ) - (a : ℚ) + 1)⌋), r.2)

/-- Model of `random.choice(xs)` (with a default for the empty list, which
Python would raise on). -/
def Rng.choice {α : Type} (g : Rng) (xs : List α) (dflt : α) : α × Rng :=
  let r := g.unit
  (xs.getD (min (xs.length - 1) (⌊r.1 * (xs.length : ℚ)⌋).toNat) dflt, r.2)

/-! ## Bulk generator data model (`data_seeder.py`) -/

/-- Lifecycle state constants `STATE_HEALTHY` / `STATE_FAILING` /
`STATE_REPAIRING` from `data_seeder.py`. -/
inductive LifeState
  | HEALTHY
  | FAILING
  | REPAIRING
deriving DecidableEq, Repr

/-- Base physics parameters per asset type, `get_base_specs`. -/
structure Specs where
  rpm : ℤ
  temp : ℚ
  vib : ℚ
  heat_coeff : ℚ
deriving DecidableEq, Repr

/-- Mirrors `get_base_specs(motor_type)` in `data_seeder.py`. -/
def get_base_specs (motor_type : String) : Specs :=
  if motor_type = "CONVEYOR" then ⟨1750, 55.0, 1.2, 15.0⟩
  else if motor_type = "FAN" then ⟨3600, 48.0, 2.5, 10.0⟩
  else if motor_type = "PUMP" then ⟨1200, 42.0, 0.8, 12.0⟩
  else ⟨1800, 50.0, 1.0, 10.0⟩

/-- Per-asset mutable runtime state of the bulk generator loop: lifecycle
state, countdown, degradation accumulators and the active fault type
(`None` or one of four strings, exactly as the source stores it). -/
structure AssetState where
  state : LifeState
  steps_until_change : ℤ
  wear_factor : ℚ
  clog_factor : ℚ
  fault : Option String
deriving DecidableEq, Repr

/-- One persisted telemetry row of the bulk generator (the `telemetry`
table columns written by `generate_lifecycle_data`); `timestamp` is the
virtual clock in minutes. -/
structure SeedRecord where
  motor_id : String
  timestamp : ℤ
  status : String
  load_pct : ℚ
  speed_rpm : ℤ
  temperature_c : ℚ
  vibration_mm_s : ℚ
  degradation_level : ℚ
deriving DecidableEq, Repr

/-- The four fault labels drawn on a HEALTHY to FAILING transition
(`random.choice(["BEARING_WEAR", "COOLING_FAIL", "LOOSE_FOOT", "MULTI"])`). -/
def fault_labels : List String :=
  ["BEARING_WEAR", "COOLING_FAIL", "LOOSE_FOOT", "MULTI"]

/-- State machine transition logic, `data_seeder.py` lines 83 to 108:
decrement the countdown and, when it reaches less or equal 0, rotate
HEALTHY to FAILING (drawing a fault label and a countdown in
`randint(216, 1080)`), FAILING to REPAIRING (`randint(12, 36)`), and
REPAIRING to HEALTHY (resetting both accumulators and the fault,
countdown `randint(1440, 4320)`). -/
def transition_step (s : AssetState) (g : Rng) : AssetState × Rng :=
  let n := s.steps_until_change - 1
  if n ≤ 0 then
    match s.state with
    | .HEALTHY =>
        let f := g.choice fault_labels "BEARING_WEAR"
        let c := f.2.randint 216 1080
        ({ s with state := .FAILING, fault := some f.1, steps_until_change := c.1 }, c.2)
    | .FAILING =>
        let c := g.randint 12 36
        ({ s with state := .REPAIRING, steps_until_change := c.1 }, c.2)
    | .REPAIRING =>
        let c := g.randint 1440 4320
        ({ s with state := .HEALTHY, steps_until_change := c.1,
                  wear_factor := 0, clog_factor := 0, fault := none }, c.2)
  else ({ s with steps_until_change := n }, g)

/-- Membership test mirroring Python's `fault in [list]` where the fault
may be `None` (in which case the test is false). -/
def fault_in (f : Option String) (xs : List String) : Bool :=
  match f with
  | some l => xs.contains l
  | none => false

/-- Degradation physics, `data_seeder.py` lines 110 to 115: only in the
FAILING state, add `uniform(0.002, 0.008)` to the wear accumulator for
fault types BEARING_WEAR / MULTI / LOOSE_FOOT and `uniform(0.05, 0.15)`
to the clog accumulator for COOLING_FAIL / MULTI. -/
def degradation_step (s : AssetState) (g : Rng) : AssetState × Rng :=
  if s.state = .FAILING then
    let w :=
      if fault_in s.fault ["BEARING_WEAR", "MULTI", "LOOSE_FOOT"] then
        let d := g.uniform 0.002 0.008
        ({ s with wear_factor := s.wear_factor + d.1 }, d.2)
      else (s, g)
    if fault_in w.1.fault ["COOLING_FAIL", "MULTI"] then
      let d := w.2.uniform 0.05 0.15
      ({ w.1 with clog_factor := w.1.clog_factor + d.1 }, d.2)
    else w
  else (s, g)

/-- Hour of day of a virtual-clock minute count (Python `datetime.hour`). -/
def hourOf (t : ℤ) : ℕ := ((t / 60) % 24).toNat

/-- Abstract environment: `hourSin h` stands for the transcendental
`np.sin((h - 6) * np.pi / 12)` of `data_seeder.py` line 119. -/
structure Env where
  hourSin : ℕ → ℚ

/-- Ambient temperature, `data_seeder.py` lines 119 to 120:
`25.0 + hour_noise * 5.0 + uniform(-1, 1)`. -/
def ambient_calc (env : Env) (t : ℤ) (g : Rng) : ℚ × Rng :=
  let n := g.uniform (-1) 1
  (25.0 + env.hourSin (hourOf t) * 5.0 + n.1, n.2)

/-- Shift-dependent base load draw, `data_seeder.py` lines 122 to 124:
`uniform(0.6, 0.95)` between 08:00 and 18:00, else `uniform(0.1, 0.4)`. -/
def base_load_draw (t : ℤ) (g : Rng) : ℚ × Rng :=
  if 8 ≤ hourOf t ∧ hourOf t ≤ 18 then g.uniform 0.6 0.95
  else g.uniform 0.1 0.4

/-- Python `int()` truncation toward zero on an exact rational. -/
def py_int (q : ℚ) : ℤ := if 0 ≤ q then ⌊q⌋ else -⌊-q⌋

/-- Physics branch of one tick, `data_seeder.py` lines 126 to 144: in the
REPAIRING state force load 0, rpm 0, vibration 0 and the ambient
temperature; otherwise compute speed with load slip, vibration with wear
and an occasional LOOSE_FOOT spike (draws are short-circuited exactly as
in the source), and temperature with heat coefficient and clog factor.
Returns `((base_load, rpm_val, vib_val, temp_val), rng)`. -/
def physics_branch (specs : Specs) (s : AssetState) (ambient bl0 : ℚ)
    (g : Rng) : (ℚ × ℤ × ℚ × ℚ) × Rng :=
  if s.state = .REPAIRING then ((0, 0, 0, ambient), g)
  else
    let rpm_val := py_int ((specs.rpm : ℚ) * (1 - 0.02 * bl0))
    let vn := g.uniform (-0.05) 0.05
    let vib0 := specs.vib + bl0 * 0.5 + s.wear_factor + vn.1
    let sp :=
      if s.fault = some "LOOSE_FOOT" ∧ s.state = .FAILING then
        let r := vn.2.unit
        if r.1 < 0.1 then
          let spike := r.2.uniform 2.0 5.0
          (vib0 + spike.1, spike.2)
        else (vib0, r.2)
      else (vib0, vn.2)
    let tn := sp.2.uniform (-0.5) 0.5
    let temp_val := ambient + bl0 * specs.heat_coeff + s.clog_factor + tn.1
    ((bl0, rpm_val, sp.1, temp_val), tn.2)

/-- Status determination, `data_seeder.py` lines 148 to 155: MAINTENANCE
in the REPAIRING state, else CRITICAL above 80 degrees or 5.0 mm/s, else
WARNING above 65 degrees or 3.5 mm/s, else NORMAL. -/
def status_label (s : AssetState) (temp_val vib_val : ℚ) : String :=
  if s.state = .REPAIRING then "MAINTENANCE"
  else if 80.0 < temp_val ∨ 5.0 < vib_val then "CRITICAL"
  else if 65.0 < temp_val ∨ 3.5 < vib_val then "WARNING"
  else "NORMAL"

/-- One emitted record of the bulk generator, `data_seeder.py` lines 117
to 172 (environment, load, physics branch, status, clamped degradation
level, buffer row).  The source's `round(_, 2)` display rounding of the
stored floats is omitted. -/
def emit_record (specs : Specs) (env : Env) (mid : String) (t : ℤ)
    (s : AssetState) (g : Rng) : SeedRecord × Rng :=
  let a := ambient_calc env t g
  let bl := base_load_draw t a.2
  let p := physics_branch specs s a.1 bl.1 bl.2
  let deg := min 100.0 (max 0.0 (s.wear_factor * 15 + s.clog_factor * 2))
  (⟨mid, t, status_label s p.1.2.2.2 p.1.2.2.1, p.1.1 * 100, p.1.2.1,
    p.1.2.2.2, p.1.2.2.1, deg⟩, p.2)

/-! ## Bulk generator driver (`generate_lifecycle_data`) -/

/-- Simulation parameters.  The source hardcodes them as the module
constants `NUM_MOTORS = 50`, `DAYS_HISTORY = 180`, `INTERVAL_MINUTES = 60`,
`BATCH_SIZE = 5000`; they are lifted to a parameter record matching the
Configuration contract of the specification. -/
structure SeedConfig where
  num_motors : ℕ
  days_history : ℕ
  interval_minutes : ℕ
  batch_size : ℕ
deriving DecidableEq, Repr

/-- The configuration constants of `data_seeder.py` lines 11 to 14. -/
def default_config : SeedConfig := ⟨50, 180, 60, 5000⟩

/-- Asset provisioning, `data_seeder.py` lines 58 to 74: draw the motor
type, build the id `MTR-{i:03d}-{TYPE[:3]}`, look up the base specs, and
draw the initial staggering countdown `randint(50, 2000)`. -/
def init_asset (i : ℕ) (g : Rng) : (String × Specs × AssetState) × Rng :=
  let mt := g.choice ["CONVEYOR", "FAN", "PUMP"] "CONVEYOR"
  let mid := "MTR-" ++ (if i < 10 then "00" else if i < 100 then "0" else "")
      ++ toString i ++ "-" ++ mt.1.take 3
  let c := mt.2.randint 50 2000
  ((mid, get_base_specs mt.1, ⟨.HEALTHY, c.1, 0, 0, none⟩), c.2)

/-- Observable state of the telemetry sink (the sqlite collaborator):
committed rows, the number of flush attempts made, the number of failed
flushes (each a printed `CRITICAL DB ERROR` in the source) and the
source's `total_inserted` counter. -/
structure SinkState where
  committed : List SeedRecord
  flush_attempts : ℕ
  failed_flushes : ℕ
  total_inserted : ℕ
deriving DecidableEq, Repr

/-- Batch flush, `data_seeder.py` lines 176 to 194: `executemany` plus
`commit` under `try`.  On success the whole buffer is committed
atomically, `total_inserted` grows (the source's `rowcount` check always
passes for a successful batch insert) and the buffer is cleared.  On an
`sqlite3.Error` the transaction is rolled back (nothing committed), the
error is printed, and - because the buffer is only cleared inside the
`try` - the buffer is retained; the loop then simply continues. -/
def flush_batch (fails : ℕ → Bool) (db : SinkState) (buffer : List SeedRecord) :
    SinkState × List SeedRecord :=
  if fails db.flush_attempts then
    ({ db with flush_attempts := db.flush_attempts + 1,
               failed_flushes := db.failed_flushes + 1 }, buffer)
  else
    ({ db with committed := db.committed ++ buffer,
               flush_attempts := db.flush_attempts + 1,
               total_inserted := db.total_inserted + buffer.length }, [])

/-- Accumulator of the driver loop: generator cursor, sink state, the
in-memory `records_buffer`, and the trace of every record ever emitted
(appended to the buffer) - the latter is the observable sequence of
emitted telemetry referenced by the specification. -/
structure BatchAcc where
  g : Rng
  db : SinkState
  buffer : List SeedRecord
  emitted : List SeedRecord

/-- One tick of one asset inside the bulk loop, `data_seeder.py` lines 82
to 194: transition logic, degradation physics, record emission, buffer
append, virtual clock advance, and a batch flush once the buffer reaches
the batch size. -/
def asset_tick (cfg : SeedConfig) (fails : ℕ → Bool) (env : Env)
    (mid : String) (specs : Specs)
    (st : AssetState × ℤ × BatchAcc) : AssetState × ℤ × BatchAcc :=
  let s1 := transition_step st.1 st.2.2.g
  let s2 := degradation_step s1.1 s1.2
  let r := emit_record specs env mid st.2.1 s2.1 s2.2
  let buffer1 := st.2.2.buffer ++ [r.1]
  let fl :=
    if cfg.batch_size ≤ buffer1.length then flush_batch fails st.2.2.db buffer1
    else (st.2.2.db, buffer1)
  (s2.1, st.2.1 + cfg.interval_minutes,
   ⟨r.2, fl.1, fl.2, st.2.2.emitted ++ [r.1]⟩)

/-- The per-asset timeline: `total_steps` ticks starting at the virtual
start date (`data_seeder.py` line 82). -/
def run_asset (cfg : SeedConfig) (fails : ℕ → Bool) (env : Env)
    (mid : String) (specs : Specs) (start : ℤ) (steps : ℕ)
    (s0 : AssetState) (acc : BatchAcc) : BatchAcc :=
  ((List.range steps).foldl (fun st _ => asset_tick cfg fails env mid specs st)
    (s0, start, acc)).2.2

/-- Outcome of a bulk run: the emitted trace, the sink state, the records
left in the in-memory buffer at exit, and whether the run crashed on the
final unguarded flush (the `executemany` at `data_seeder.py` lines 196 to
205 has no `try`, so a failure there propagates). -/
structure RunResult where
  emitted : List SeedRecord
  db : SinkState
  leftover : List SeedRecord
  crashed : Bool
deriving Repr

/-- The main seeding loop, `data_seeder.py` lines 52 to 194: the start
date is `now` minus the history window, `total_steps` is the window
divided by the sampling interval, and assets are processed in ascending
index order with the record buffer shared across assets. -/
def seed_loop (cfg : SeedConfig) (env : Env) (fails : ℕ → Bool)
    (g0 : Rng) (now : ℤ) : BatchAcc :=
  let start := now - (cfg.days_history : ℤ) * 24 * 60
  let steps := cfg.days_history * 24 * 60 / cfg.interval_minutes
  (List.range cfg.num_motors).foldl
    (fun acc idx =>
      let ia := init_asset (idx + 1) acc.g
      run_asset cfg fails env ia.1.1 ia.1.2.1 start steps ia.1.2.2
        { acc with g := ia.2 })
    ⟨g0, ⟨[], 0, 0, 0⟩, [], []⟩

/-- The final commit of the remaining records, `data_seeder.py` lines 196
to 205: unlike the in-loop flush this `executemany` is not guarded by a
`try`, so a storage failure here propagates and crashes the run (with the
transaction not committed). -/
def final_flush (fails : ℕ → Bool) (acc : BatchAcc) : RunResult :=
  if acc.buffer.isEmpty then ⟨acc.emitted, acc.db, [], false⟩
  else if fails acc.db.flush_attempts then
    ⟨acc.emitted,
     { acc.db with flush_attempts := acc.db.flush_attempts + 1,
                   failed_flushes := acc.db.failed_flushes + 1 },
     acc.buffer, true⟩
  else
    ⟨acc.emitted,
     { acc.db with committed := acc.db.committed ++ acc.buffer,
                   flush_attempts := acc.db.flush_attempts + 1,
                   total_inserted := acc.db.total_inserted + acc.buffer.length },
     [], false⟩

/-- The whole bulk run, `generate_lifecycle_data`: the main loop followed
by the final unguarded commit. -/
def generate_lifecycle_data (cfg : SeedConfig) (env : Env)
    (fails : ℕ → Bool) (g0 : Rng) (now : ℤ) : RunResult :=
  final_flush fails (seed_loop cfg env fails g0 now)

/-! ## Real-time physics model (`motor.py`, class `MotorSimulator`) -/

/-- Threshold and coefficient class constants of `MotorSimulator`. -/
def TEMP_THRESHOLD_WARNING : ℚ := 80.0
def VIBRATION_THRESHOLD_WARNING : ℚ := 5.0
def SPEED_REDUCTION_STEP : ℚ := 200
def HEAT_RPM_MULTIPLIER : ℚ := 10.0
def HEAT_WEAR_MULTIPLIER : ℚ := 5.0
def PASSIVE_COOLING_RATE : ℚ := 0.15
def THERMAL_NOISE_MIN : ℚ := -0.2
def THERMAL_NOISE_MAX : ℚ := 0.3
def VIBRATION_WEAR_MULTIPLIER : ℚ := 2.0
def MECH_NOISE_MIN : ℚ := -0.05
def MECH_NOISE_MAX : ℚ := 0.1
def NORMALIZATION_TEMP : ℚ := 100.0
def NORMALIZATION_VIB : ℚ := 2.0
def SPEED_NOISE_RANGE : ℤ := 50
def MAX_LOAD_SLIP_RPM : ℚ := 20

/-- Full state of a `MotorSimulator` instance: the `MotorSensor` base
fields (`speed`, `temperature`, `vibration`, `_is_running`), the
constructor configuration, and the mutable simulation state. -/
structure Motor where
  motor_id : String
  speed : ℚ
  temperature : ℚ
  vibration : ℚ
  is_running : Bool
  base_rpm : ℤ
  base_temperature : ℚ
  base_vibration : ℚ
  temp_factor : ℚ
  vibration_factor : ℚ
  degradation_rate : ℚ
  current_load : ℚ
  degradation_accumulated : ℚ
  cycle_count : ℕ
deriving DecidableEq, Repr

/-- `MotorSimulator.__init__` composed with the `MotorSensor` base
initializer: speed 0, temperature 25, vibration 0, not running, zero
accumulated degradation and cycle count; the given `initial_load` is
stored as-is (the constructor does not clamp it). -/
def Motor.init (motor_id : String) (base_rpm : ℤ) (base_temperature : ℚ)
    (base_vibration : ℚ) (temp_factor : ℚ) (vibration_factor : ℚ)
    (degradation_rate : ℚ) (initial_load : ℚ) : Motor :=
  ⟨motor_id, 0, 25.0, 0.0, false, base_rpm, base_temperature, base_vibration,
   temp_factor, vibration_factor, degradation_rate, initial_load, 0.0, 0⟩

/-- `Motor.init` with the Python default arguments
`base_rpm=1800, base_temperature=45.0, base_vibration=0.5,
temp_factor=0.02, vibration_factor=0.01, degradation_rate=0.0005,
initial_load=0.8`. -/
def Motor.initDefault (motor_id : String) : Motor :=
  Motor.init motor_id 1800 45.0 0.5 0.02 0.01 0.0005 0.8

/-- `MotorSimulator.start`. -/
def Motor.start (m : Motor) : Motor :=
  { m with is_running := true, speed := (m.base_rpm : ℚ),
           temperature := m.base_temperature, vibration := m.base_vibration }

/-- `MotorSimulator.stop`. -/
def Motor.stop (m : Motor) : Motor :=
  { m with is_running := false, speed := 0 }

/-- `MotorSimulator.set_load`: clamps the argument into `[0, 1]`. -/
def Motor.set_load (m : Motor) (load_percentage : ℚ) : Motor :=
  { m with current_load := max 0.0 (min 1.0 load_percentage) }

/-- `MotorSimulator._check_safety_thresholds`: each tripped threshold
(temperature above 80, then vibration above 5.0) independently reduces
the speed by 200 rpm, floored at 0. -/
def Motor.check_safety (m : Motor) : Motor :=
  let m1 :=
    if TEMP_THRESHOLD_WARNING < m.temperature then
      { m with speed := max 0 (m.speed - SPEED_REDUCTION_STEP) }
    else m
  if VIBRATION_THRESHOLD_WARNING < m1.vibration then
    { m1 with speed := max 0 (m1.speed - SPEED_REDUCTION_STEP) }
  else m1

/-- Steps 1 to 4 of `MotorSimulator.simulate_cycle` (`motor.py` lines 122
to 155): cycle count, target speed with load slip and integer noise,
degradation from the stress factor (using the pre-update temperature and
vibration), then the temperature and vibration updates (both reading the
pre-update `self.speed`), and finally `speed = max(0, target_speed)`. -/
def Motor.cycle_mid (m : Motor) (g : Rng) : Motor × Rng :=
  let sn := g.randint (-SPEED_NOISE_RANGE) SPEED_NOISE_RANGE
  let target_speed := ((m.base_rpm : ℚ) - m.current_load * MAX_LOAD_SLIP_RPM)
      + (sn.1 : ℚ)
  let stress_factor := (m.temperature / NORMALIZATION_TEMP)
      * (m.vibration / NORMALIZATION_VIB) * (1 + m.current_load)
  let deg := m.degradation_accumulated + m.degradation_rate * (1 + stress_factor)
  let tn := sn.2.uniform THERMAL_NOISE_MIN THERMAL_NOISE_MAX
  let temp := m.temperature
      + (m.speed / (m.base_rpm : ℚ)) * m.temp_factor * HEAT_RPM_MULTIPLIER
        * m.current_load
      + deg * HEAT_WEAR_MULTIPLIER + tn.1 - PASSIVE_COOLING_RATE
  let mn := tn.2.uniform MECH_NOISE_MIN MECH_NOISE_MAX
  let vib := m.base_vibration
      + (m.speed / (m.base_rpm : ℚ)) * m.vibration_factor * m.current_load
      + deg * VIBRATION_WEAR_MULTIPLIER + mn.1
  ({ m with cycle_count := m.cycle_count + 1, degradation_accumulated := deg,
            temperature := temp, vibration := vib,
            speed := max 0 target_speed }, mn.2)

/-- `MotorSimulator.simulate_cycle`: a no-op when the motor is not
running, otherwise the physics update followed by the safety check. -/
def Motor.simulate_cycle (m : Motor) (g : Rng) : Motor × Rng :=
  if m.is_running then
    let r := m.cycle_mid g
    (r.1.check_safety, r.2)
  else (m, g)

/-- The unthrottled target speed of a cycle (before the `max(0, _)` floor
and before any safety reduction): `(base_rpm - load_drag) + speed_noise`,
where the noise is the first draw of the cycle. -/
def unthrottled_target (m : Motor) (g : Rng) : ℚ :=
  ((m.base_rpm : ℚ) - m.current_load * MAX_LOAD_SLIP_RPM)
    + (((g.randint (-SPEED_NOISE_RANGE) SPEED_NOISE_RANGE).1 : ℚ))

/-- `MotorSimulator.perform_maintenance`: refused (returning with no state
change) while running; otherwise resets accumulated degradation and
restores base temperature and vibration. -/
def Motor.perform_maintenance (m : Motor) : Motor :=
  if m.is_running then m
  else { m with degradation_accumulated := 0.0,
                temperature := m.base_temperature,
                vibration := m.base_vibration }

/-- The telemetry packet returned by `MotorSimulator.get_telemetry`;
`timestamp` models `datetime.now().isoformat()` as an explicit clock
parameter.  The source's display rounding of the float fields is
omitted; `speed_rpm` keeps the source's `int(self.speed)` truncation. -/
structure Telemetry where
  motor_id : String
  timestamp : ℤ
  status : String
  load_pct : ℚ
  speed_rpm : ℤ
  temperature_c : ℚ
  vibration_mm_s : ℚ
  degradation_level : ℚ
deriving DecidableEq, Repr

/-- `MotorSimulator.get_telemetry`: advances the simulation one cycle as a
side effect of the read, then packages the current state; the status
field is the string `RUNNING` or `STOPPED`. -/
def Motor.get_telemetry (m : Motor) (t : ℤ) (g : Rng) :
    Telemetry × Motor × Rng :=
  let r := m.simulate_cycle g
  (⟨r.1.motor_id, t, if r.1.is_running then "RUNNING" else "STOPPED",
    r.1.current_load * 100, py_int r.1.speed, r.1.temperature,
    r.1.vibration, r.1.degradation_accumulated⟩, r.1, r.2)

/-! ## Real-time driver (`realtime_simulation.py`, `run_simulation`) -/

/-- Accumulator of the real-time loop: the live motors, the generator
cursor, the clock (advanced by one unit per telemetry read), and the rows
persisted through `DatabaseHandler.save_reading` (whose own sqlite errors
are swallowed with a log line; the success path appends the packet
unchanged). -/
structure RtAcc where
  motors : List Motor
  g : Rng
  t : ℤ
  db : List Telemetry

/-- One asset inside one cycle of the loop at `realtime_simulation.py`
lines 53 to 59: read telemetry (which advances the physics) and persist
the packet immediately. -/
def rt_tick (acc : RtAcc) (m : Motor) : RtAcc :=
  let r := m.get_telemetry acc.t acc.g
  ⟨acc.motors ++ [r.2.1], r.2.2, acc.t + 1, acc.db ++ [r.1]⟩

/-- One wall-clock cycle: every asset is processed in order. -/
def rt_cycle (acc : RtAcc) : RtAcc :=
  acc.motors.foldl rt_tick { acc with motors := [] }

/-- The two digital twins provisioned by `run_simulation`
(`realtime_simulation.py` lines 28 to 39); unspecified constructor
arguments take the Python defaults. -/
def motor_01 : Motor := Motor.init "MTR-01-CONVEYOR" 1750 45.0 0.5 0.02 0.01 0.0005 0.8
def motor_02 : Motor := Motor.init "MTR-02-FAN" 3500 45.0 0.5 0.02 0.01 0.0005 0.95

/-- `run_simulation`: start both motors, run 10 cycles persisting one
record per asset per cycle, and return the persisted rows. -/
def run_simulation (g0 : Rng) (t0 : ℤ) : List Telemetry :=
  ((List.range 10).foldl (fun a _ => rt_cycle a)
    ⟨[motor_01.start, motor_02.start], g0, t0, []⟩).db

/-- Conversion of a number of days into ticks of the configured sampling
interval (the source computes `total_steps` this way at
`data_seeder.py` line 53). -/
def days_to_ticks (cfg : SeedConfig) (d : ℕ) : ℕ :=
  d * 24 * 60 / cfg.interval_minutes

/-- Conversion of a number of hours into ticks of the configured sampling
interval. -/
def hours_to_ticks (cfg : SeedConfig) (h : ℕ) : ℕ :=
  h * 60 / cfg.interval_minutes

/-- A concrete all-zero random stream (every unit draw is 0), used to
evaluate the model on concrete inputs. -/
def zeroRng : Rng := ⟨fun _ => 0, 0⟩

/-- A concrete environment whose sine table is identically 0. -/
def zeroEnv : Env := ⟨fun _ => 0⟩

/-- A storage oracle on which no write ever fails. -/
def neverFails : ℕ → Bool := fun _ => false

/-- A storage oracle on which exactly the first flush attempt fails. -/
def failFirst : ℕ → Bool := fun n => n == 0

/-- Telemetry no-loss invariant of the bulk driver loop: the emitted
trace is exactly the committed rows followed by the in-memory buffer. -/
def BatchInv (acc : BatchAcc) : Prop :=
  acc.emitted = acc.db.committed ++ acc.buffer

/-! ## Range lemmas for the random primitives -/

lemma unit01_nonneg (q : ℚ) : 0 ≤ unit01 q := le_max_left 0 _

lemma unit01_le_one (q : ℚ) : unit01 q ≤ 1 :=
  max_le (by norm_num) (min_le_left 1 q)

lemma unit_fst_nonneg (g : Rng) : 0 ≤ (g.unit).1 := unit01_nonneg _

lemma unit_fst_le_one (g : Rng) : (g.unit).1 ≤ 1 := unit01_le_one _

lemma uniform_fst_ge (g : Rng) (a b : ℚ) (hab : a ≤ b) : a ≤ (g.uniform a b).1 := by
  have h0 := unit_fst_nonneg g
  have h1 := unit_fst_le_one g
  simp only [Rng.uniform]
  nlinarith

lemma uniform_fst_le (g : Rng) (a b : ℚ) (hab : a ≤ b) : (g.uniform a b).1 ≤ b := by
  have h0 := unit_fst_nonneg g
  have h1 := unit_fst_le_one g
  simp only [Rng.uniform]
  nlinarith

lemma randint_fst_ge (g : Rng) (a b : ℤ) (hab : a ≤ b) : a ≤ (g.randint a b).1 := by
  have h0 := unit_fst_nonneg g
  have hf : (0 : ℤ) ≤ ⌊(g.unit).1 * ((b : ℚ) - (a : ℚ) + 1)⌋ := by
    apply Int.le_floor.mpr
    push_cast
    have hba : (0 : ℚ) ≤ (b : ℚ) - (a : ℚ) + 1 := by
      have h2 : (a : ℚ) ≤ (b : ℚ) := by exact_mod_cast hab
      linarith
    nlinarith
  simp only [Rng.randint]
  exact le_min hab (by linarith)

lemma randint_fst_le (g : Rng) (a b : ℤ) : (g.randint a b).1 ≤ b := by
  simp only [Rng.randint]
  exact min_le_left _ _

/-! ## Claim theorems -/

/-- C5: for every tick during which an asset is in the REPAIRING lifecycle
state, the emitted record has load 0, speed 0, vibration 0, temperature
equal to the ambient value drawn that tick, and status MAINTENANCE,
regardless of the wear and clog accumulators. -/
theorem c5_repairing_record (specs : Specs) (env : Env) (mid : String)
    (t : ℤ) (s : AssetState) (g : Rng) (h : s.state = .REPAIRING) :
    (emit_record specs env mid t s g).1.load_pct = 0 ∧
    (emit_record specs env mid t s g).1.speed_rpm = 0 ∧
    (emit_record specs env mid t s g).1.vibration_mm_s = 0 ∧
    (emit_record specs env mid t s g).1.temperature_c = (ambient_calc env t g).1 ∧
    (emit_record specs env mid t s g).1.status = "MAINTENANCE" := by
  simp [emit_record, physics_branch, status_label, h]

/-- Witness for C5 at a concrete REPAIRING state with nonzero wear and
clog accumulators. -/
theorem c5_repairing_record_witness :
    (emit_record (get_base_specs "PUMP") zeroEnv "M" 0
      ⟨.REPAIRING, 5, 7, 9, none⟩ zeroRng).1.load_pct = 0 ∧
    (emit_record (get_base_specs "PUMP") zeroEnv "M" 0
      ⟨.REPAIRING, 5, 7, 9, none⟩ zeroRng).1.speed_rpm = 0 ∧
    (emit_record (get_base_specs "PUMP") zeroEnv "M" 0
      ⟨.REPAIRING, 5, 7, 9, none⟩ zeroRng).1.vibration_mm_s = 0 ∧
    (emit_record (get_base_specs "PUMP") zeroEnv "M" 0
      ⟨.REPAIRING, 5, 7, 9, none⟩ zeroRng).1.temperature_c
      = (ambient_calc zeroEnv 0 zeroRng).1 ∧
    (emit_record (get_base_specs "PUMP") zeroEnv "M" 0
      ⟨.REPAIRING, 5, 7, 9, none⟩ zeroRng).1.status = "MAINTENANCE" :=
  c5_repairing_record (get_base_specs "PUMP") zeroEnv "M" 0
    ⟨.REPAIRING, 5, 7, 9, none⟩ zeroRng rfl

/-- C9: when a MotorSimulator is not running, the simulation step inside a
telemetry read is a no-op: every state field is unchanged (the returned
motor is the input motor and no randomness is consumed), and repeated
reads at the same clock value return the same packet. -/
theorem c9_stopped_read_frame (m : Motor) (t : ℤ) (g g' : Rng)
    (h : m.is_running = false) :
    m.simulate_cycle g = (m, g) ∧
    (m.get_telemetry t g).2.1 = m ∧
    (m.get_telemetry t g).2.2 = g ∧
    (m.get_telemetry t g).1 = (m.get_telemetry t g').1 := by
  simp [Motor.simulate_cycle, Motor.get_telemetry, h]

/-- Witness for C9 on a concrete stopped motor. -/
theorem c9_stopped_read_frame_witness :
    (Motor.initDefault "M9").simulate_cycle zeroRng = (Motor.initDefault "M9", zeroRng) ∧
    ((Motor.initDefault "M9").get_telemetry 0 zeroRng).2.1 = Motor.initDefault "M9" ∧
    ((Motor.initDefault "M9").get_telemetry 0 zeroRng).2.2 = zeroRng ∧
    ((Motor.initDefault "M9").get_telemetry 0 zeroRng).1
      = ((Motor.initDefault "M9").get_telemetry 0 ⟨fun _ => 1, 3⟩).1 :=
  c9_stopped_read_frame (Motor.initDefault "M9") 0 zeroRng ⟨fun _ => 1, 3⟩ rfl

/-- C10: perform_maintenance on a running motor changes no state at all;
on a stopped motor it zeroes the accumulated degradation, restores base
temperature and vibration, and leaves the id, speed, load and every
configuration field unchanged (and the motor stays stopped). -/
theorem c10_perform_maintenance_frame (m : Motor) :
    (m.is_running = true → m.perform_maintenance = m) ∧
    (m.is_running = false →
      m.perform_maintenance.degradation_accumulated = 0 ∧
      m.perform_maintenance.temperature = m.base_temperature ∧
      m.perform_maintenance.vibration = m.base_vibration ∧
      m.perform_maintenance.motor_id = m.motor_id ∧
      m.perform_maintenance.speed = m.speed ∧
      m.perform_maintenance.current_load = m.current_load ∧
      m.perform_maintenance.base_rpm = m.base_rpm ∧
      m.perform_maintenance.base_temperature = m.base_temperature ∧
      m.perform_maintenance.base_vibration = m.base_vibration ∧
      m.perform_maintenance.temp_factor = m.temp_factor ∧
      m.perform_maintenance.vibration_factor = m.vibration_factor ∧
      m.perform_maintenance.degradation_rate = m.degradation_rate ∧
      m.perform_maintenance.cycle_count = m.cycle_count ∧
      m.perform_maintenance.is_running = false) := by
  constructor <;> intro h <;> norm_num [Motor.perform_maintenance, h]

/-- Witness for C10: the running case on a started motor and the stopped
case on a freshly constructed motor. -/
theorem c10_perform_maintenance_frame_witness :
    ((Motor.initDefault "MA").start.perform_maintenance = (Motor.initDefault "MA").start) ∧
    ((Motor.initDefault "MB").perform_maintenance.degradation_accumulated = 0 ∧
      (Motor.initDefault "MB").perform_maintenance.temperature
        = (Motor.initDefault "MB").base_temperature) := by
  refine ⟨(c10_perform_maintenance_frame (Motor.initDefault "MA").start).1 rfl, ?_, ?_⟩
  · exact ((c10_perform_maintenance_frame (Motor.initDefault "MB")).2 rfl).1
  · exact ((c10_perform_maintenance_frame (Motor.initDefault "MB")).2 rfl).2.1

lemma getD_mem {α : Type} :
    ∀ (xs : List α) (n : ℕ) (d : α), n < xs.length → xs.getD n d ∈ xs := by
  intro xs
  induction xs with
  | nil => intro n d h; simp at h
  | cons a l ih =>
      intro n d h
      cases n with
      | zero => simp [List.getD]
      | succ k =>
          have hk : k < l.length := by simpa using h
          simp only [List.getD_cons_succ]
          exact List.mem_cons_of_mem a (ih k d hk)

lemma choice_mem {α : Type} (g : Rng) (xs : List α) (d : α) (h : xs ≠ []) :
    (g.choice xs d).1 ∈ xs := by
  have hlen : 0 < xs.length := List.length_pos.mpr h
  simp only [Rng.choice]
  apply getD_mem
  have h1 : min (xs.length - 1) (⌊(g.unit).1 * (xs.length : ℚ)⌋).toNat
      ≤ xs.length - 1 := min_le_left _ _
  omega

/-- C6: a triggered HEALTHY transition moves to FAILING and assigns a
fault label from exactly the four-element set; a triggered REPAIRING
transition moves to HEALTHY, resets both accumulators to exactly 0 and
clears the fault; any other transition outcome leaves the accumulators
unchanged; and the degradation step leaves the accumulators unchanged
outside the FAILING state and never decreases them. -/
theorem c6_lifecycle_transitions (s : AssetState) (g : Rng) :
    (s.steps_until_change - 1 ≤ 0 → s.state = .HEALTHY →
      (transition_step s g).1.state = .FAILING ∧
      ((transition_step s g).1.fault = some "BEARING_WEAR" ∨
       (transition_step s g).1.fault = some "COOLING_FAIL" ∨
       (transition_step s g).1.fault = some "LOOSE_FOOT" ∨
       (transition_step s g).1.fault = some "MULTI")) ∧
    (s.steps_until_change - 1 ≤ 0 → s.state = .REPAIRING →
      (transition_step s g).1.state = .HEALTHY ∧
      (transition_step s g).1.wear_factor = 0 ∧
      (transition_step s g).1.clog_factor = 0 ∧
      (transition_step s g).1.fault = none) ∧
    (¬ (s.steps_until_change - 1 ≤ 0 ∧ s.state = .REPAIRING) →
      (transition_step s g).1.wear_factor = s.wear_factor ∧
      (transition_step s g).1.clog_factor = s.clog_factor) ∧
    (s.state ≠ .FAILING →
      (degradation_step s g).1.wear_factor = s.wear_factor ∧
      (degradation_step s g).1.clog_factor = s.clog_factor) ∧
    (s.wear_factor ≤ (degradation_step s g).1.wear_factor ∧
     s.clog_factor ≤ (degradation_step s g).1.clog_factor) := by
  refine ⟨?_, ?_, ?_, ?_, ?_⟩
  · intro ht hs
    have ht' : s.steps_until_change ≤ 1 := by omega
    have hmem : (g.choice fault_labels "BEARING_WEAR").1 = "BEARING_WEAR" ∨
        (g.choice fault_labels "BEARING_WEAR").1 = "COOLING_FAIL" ∨
        (g.choice fault_labels "BEARING_WEAR").1 = "LOOSE_FOOT" ∨
        (g.choice fault_labels "BEARING_WEAR").1 = "MULTI" := by
      have h0 := choice_mem g fault_labels "BEARING_WEAR" (by simp [fault_labels])
      simpa [fault_labels] using h0
    refine ⟨by simp [transition_step, hs, ht'], ?_⟩
    simp only [transition_step, hs, ht', if_pos]
    rcases hmem with h1 | h1 | h1 | h1 <;> simp [h1, ht']
  · intro ht hs
    have ht' : s.steps_until_change ≤ 1 := by omega
    simp [transition_step, hs, ht']
  · intro hn
    by_cases ht : s.steps_until_change - 1 ≤ 0
    · have ht' : s.steps_until_change ≤ 1 := by omega
      have hs : s.state ≠ .REPAIRING := fun hr => hn ⟨ht, hr⟩
      cases hstate : s.state with
      | HEALTHY => simp [transition_step, hstate, ht']
      | FAILING => simp [transition_step, hstate, ht']
      | REPAIRING => exact absurd hstate hs
    · have ht' : ¬ s.steps_until_change ≤ 1 := by omega
      simp [transition_step, ht']
  · intro hs
    simp [degradation_step, if_neg hs]
  · by_cases hs : s.state = LifeState.FAILING
    · simp only [degradation_step, if_pos hs]
      by_cases hw : fault_in s.fault ["BEARING_WEAR", "MULTI", "LOOSE_FOOT"] = true
      · by_cases hc : fault_in s.fault ["COOLING_FAIL", "MULTI"] = true
        · have h1 := uniform_fst_ge g 0.002 0.008 (by norm_num)
          have h2 := uniform_fst_ge
            ((g.uniform 0.002 0.008).2) 0.05 0.15 (by norm_num)
          simp [hw, hc]
          constructor <;> nlinarith
        · have h1 := uniform_fst_ge g 0.002 0.008 (by norm_num)
          simp [hw, hc]
          nlinarith
      · by_cases hc : fault_in s.fault ["COOLING_FAIL", "MULTI"] = true
        · have h2 := uniform_fst_ge g 0.05 0.15 (by norm_num)
          simp [hw, hc]
          nlinarith
        · simp [hw, hc]
    · simp [degradation_step, if_neg hs]

/-- Witness for C6 at concrete states: a HEALTHY state whose countdown
expires, a REPAIRING state whose countdown expires (with nonzero
accumulators), and a FAILING degradation tick. -/
theorem c6_lifecycle_transitions_witness :
    ((transition_step ⟨.HEALTHY, 1, 0, 0, none⟩ zeroRng).1.state = .FAILING ∧
      ((transition_step ⟨.HEALTHY, 1, 0, 0, none⟩ zeroRng).1.fault = some "BEARING_WEAR" ∨
       (transition_step ⟨.HEALTHY, 1, 0, 0, none⟩ zeroRng).1.fault = some "COOLING_FAIL" ∨
       (transition_step ⟨.HEALTHY, 1, 0, 0, none⟩ zeroRng).1.fault = some "LOOSE_FOOT" ∨
       (transition_step ⟨.HEALTHY, 1, 0, 0, none⟩ zeroRng).1.fault = some "MULTI")) ∧
    ((transition_step ⟨.REPAIRING, 1, 7, 9, some "MULTI"⟩ zeroRng).1.wear_factor = 0 ∧
     (transition_step ⟨.REPAIRING, 1, 7, 9, some "MULTI"⟩ zeroRng).1.clog_factor = 0 ∧
     (transition_step ⟨.REPAIRING, 1, 7, 9, some "MULTI"⟩ zeroRng).1.fault = none) ∧
    ((⟨.FAILING, 100, 1, 2, some "MULTI"⟩ : AssetState).wear_factor
      ≤ (degradation_step ⟨.FAILING, 100, 1, 2, some "MULTI"⟩ zeroRng).1.wear_factor) := by
  refine ⟨?_, ?_, ?_⟩
  · exact (c6_lifecycle_transitions ⟨.HEALTHY, 1, 0, 0, none⟩ zeroRng).1
      (by norm_num) rfl
  · have h := (c6_lifecycle_transitions
      ⟨.REPAIRING, 1, 7, 9, some "MULTI"⟩ zeroRng).2.1 (by norm_num) rfl
    exact ⟨h.2.1, h.2.2⟩
  · exact (c6_lifecycle_transitions
      ⟨.FAILING, 100, 1, 2, some "MULTI"⟩ zeroRng).2.2.2.2.1

/-- C8: evaluation of the countdown logic against the stated time scales.
When a HEALTHY asset's countdown expires, the code draws the new countdown
from `randint(216, 1080)` ticks; but at the configured sampling interval
(`INTERVAL_MINUTES = 60`, the `default_config`) 3 to 15 days are 72 to 360
ticks, 4 to 12 hours are 4 to 12 ticks (code: 12 to 36) and 20 to 60 days
are 480 to 1440 ticks (code: 1440 to 4320).  The code's tick constants
equal the stated day and hour scales only at a 20-minute interval. -/
theorem c8_countdown_ticks (s : AssetState) (g : Rng)
    (h1 : s.state = .HEALTHY) (h2 : s.steps_until_change ≤ 1) :
    (216 ≤ (transition_step s g).1.steps_until_change ∧
     (transition_step s g).1.steps_until_change ≤ 1080) ∧
    days_to_ticks default_config 3 = 72 ∧
    days_to_ticks default_config 15 = 360 ∧
    hours_to_ticks default_config 4 = 4 ∧
    hours_to_ticks default_config 12 = 12 ∧
    days_to_ticks default_config 20 = 480 ∧
    days_to_ticks default_config 60 = 1440 ∧
    days_to_ticks ⟨50, 180, 20, 5000⟩ 3 = 216 ∧
    days_to_ticks ⟨50, 180, 20, 5000⟩ 15 = 1080 ∧
    ¬ ((216 : ℤ) = 72 ∧ (1080 : ℤ) = 360) := by
  refine ⟨?_, by decide, by decide, by decide, by decide, by decide,
    by decide, by decide, by decide, by decide⟩
  have hge := randint_fst_ge (g.choice fault_labels "BEARING_WEAR").2 216 1080
    (by norm_num)
  have hle := randint_fst_le (g.choice fault_labels "BEARING_WEAR").2 216 1080
  have ht : s.steps_until_change - 1 ≤ 0 := by omega
  simp only [transition_step, h1, if_pos ht]
  exact ⟨hge, hle⟩

/-- Witness for C8 at a concrete expiring HEALTHY state. -/
theorem c8_countdown_ticks_witness :
    (216 ≤ (transition_step ⟨.HEALTHY, 1, 0, 0, none⟩ zeroRng).1.steps_until_change ∧
     (transition_step ⟨.HEALTHY, 1, 0, 0, none⟩ zeroRng).1.steps_until_change ≤ 1080) ∧
    days_to_ticks default_config 3 = 72 ∧
    days_to_ticks default_config 15 = 360 ∧
    hours_to_ticks default_config 4 = 4 ∧
    hours_to_ticks default_config 12 = 12 ∧
    days_to_ticks default_config 20 = 480 ∧
    days_to_ticks default_config 60 = 1440 ∧
    days_to_ticks ⟨50, 180, 20, 5000⟩ 3 = 216 ∧
    days_to_ticks ⟨50, 180, 20, 5000⟩ 15 = 1080 ∧
    ¬ ((216 : ℤ) = 72 ∧ (1080 : ℤ) = 360) :=
  c8_countdown_ticks ⟨.HEALTHY, 1, 0, 0, none⟩ zeroRng rfl (by norm_num)


lemma base_load_bounds (t : ℤ) (g : Rng) :
    0 ≤ (base_load_draw t g).1 ∧ (base_load_draw t g).1 ≤ 1 := by
  unfold base_load_draw
  split_ifs with h
  · have h1 := uniform_fst_ge g 0.6 0.95 (by norm_num)
    have h2 := uniform_fst_le g 0.6 0.95 (by norm_num)
    constructor <;> linarith
  · have h1 := uniform_fst_ge g 0.1 0.4 (by norm_num)
    have h2 := uniform_fst_le g 0.1 0.4 (by norm_num)
    constructor <;> linarith

lemma py_int_nonneg (q : ℚ) (h : 0 ≤ q) : 0 ≤ py_int q := by
  simp only [py_int, if_pos h]
  exact Int.le_floor.mpr (by exact_mod_cast h)

lemma emit_record_load_pct (specs : Specs) (env : Env) (mid : String)
    (t : ℤ) (s : AssetState) (g : Rng) :
    (emit_record specs env mid t s g).1.load_pct
      = (physics_branch specs s (ambient_calc env t g).1
          (base_load_draw t (ambient_calc env t g).2).1
          (base_load_draw t (ambient_calc env t g).2).2).1.1 * 100 := rfl

lemma emit_record_speed (specs : Specs) (env : Env) (mid : String)
    (t : ℤ) (s : AssetState) (g : Rng) :
    (emit_record specs env mid t s g).1.speed_rpm
      = (physics_branch specs s (ambient_calc env t g).1
          (base_load_draw t (ambient_calc env t g).2).1
          (base_load_draw t (ambient_calc env t g).2).2).1.2.1 := rfl

lemma emit_record_degradation (specs : Specs) (env : Env) (mid : String)
    (t : ℤ) (s : AssetState) (g : Rng) :
    (emit_record specs env mid t s g).1.degradation_level
      = min 100.0 (max 0.0 (s.wear_factor * 15 + s.clog_factor * 2)) := rfl

lemma physics_branch_load_bounds (specs : Specs) (s : AssetState)
    (ambient bl0 : ℚ) (g : Rng) (h0 : 0 ≤ bl0) (h1 : bl0 ≤ 1) :
    0 ≤ (physics_branch specs s ambient bl0 g).1.1 ∧
    (physics_branch specs s ambient bl0 g).1.1 ≤ 1 := by
  by_cases hrep : s.state = LifeState.REPAIRING
  · simp [physics_branch, hrep]
  · simp only [physics_branch, if_neg hrep]
    exact ⟨h0, h1⟩

lemma check_safety_speed_nonneg (m : Motor) (h : 0 ≤ m.speed) :
    0 ≤ m.check_safety.speed := by
  unfold Motor.check_safety
  split_ifs <;> simp_all <;> split_ifs <;> simp_all

lemma cycle_mid_speed (m : Motor) (g : Rng) :
    (m.cycle_mid g).1.speed = max 0 (unthrottled_target m g) := rfl

lemma physics_branch_speed_nonneg (specs : Specs) (s : AssetState)
    (ambient bl0 : ℚ) (g : Rng) (hrpm : 0 ≤ specs.rpm)
    (_h0 : 0 ≤ bl0) (h1 : bl0 ≤ 1) :
    0 ≤ (physics_branch specs s ambient bl0 g).1.2.1 := by
  by_cases hrep : s.state = LifeState.REPAIRING
  · simp [physics_branch, hrep]
  · simp only [physics_branch, if_neg hrep]
    apply py_int_nonneg
    have hc : (0 : ℚ) ≤ (specs.rpm : ℚ) := by exact_mod_cast hrpm
    nlinarith

/-- C4 (amended): in the bulk generator every emitted record has its load
percentage in `[0, 100]` (that is, load fraction in `[0, 1]`), its speed
nonnegative, and its reported degradation level in `[0, 100]`; in the
real-time simulator `set_load` clamps any argument into `[0, 1]` and the
speed after a running simulation cycle is nonnegative. -/
theorem c4_clamping_invariants (specs : Specs) (env : Env) (mid : String)
    (t : ℤ) (s : AssetState) (g : Rng) (m : Motor) (x : ℚ) (g2 : Rng)
    (hrpm : 0 ≤ specs.rpm) :
    (0 ≤ (emit_record specs env mid t s g).1.load_pct ∧
     (emit_record specs env mid t s g).1.load_pct ≤ 100) ∧
    0 ≤ (emit_record specs env mid t s g).1.speed_rpm ∧
    (0 ≤ (emit_record specs env mid t s g).1.degradation_level ∧
     (emit_record specs env mid t s g).1.degradation_level ≤ 100) ∧
    (0 ≤ (m.set_load x).current_load ∧ (m.set_load x).current_load ≤ 1) ∧
    (m.is_running = true → 0 ≤ (m.simulate_cycle g2).1.speed) := by
  have hbl := base_load_bounds t (ambient_calc env t g).2
  have hload := physics_branch_load_bounds specs s (ambient_calc env t g).1
    (base_load_draw t (ambient_calc env t g).2).1
    (base_load_draw t (ambient_calc env t g).2).2 hbl.1 hbl.2
  refine ⟨?_, ?_, ?_, ?_, ?_⟩
  · rw [emit_record_load_pct]
    constructor <;> nlinarith [hload.1, hload.2]
  · rw [emit_record_speed]
    exact physics_branch_speed_nonneg specs s _ _ _ hrpm hbl.1 hbl.2
  · rw [emit_record_degradation]
    refine ⟨le_min (by norm_num) ?_, le_trans (min_le_left _ _) (by norm_num)⟩
    exact le_trans (by norm_num)
      (le_max_left 0.0 (s.wear_factor * 15 + s.clog_factor * 2))
  · constructor
    · simp only [Motor.set_load]
      exact le_trans (by norm_num) (le_max_left 0.0 (min 1.0 x))
    · simp only [Motor.set_load]
      exact max_le (by norm_num) (le_trans (min_le_left 1.0 x) (by norm_num))
  · intro hr
    simp only [Motor.simulate_cycle, hr, if_pos]
    apply check_safety_speed_nonneg
    rw [cycle_mid_speed]
    exact le_max_left 0 _

/-- Witness for C4 at a concrete state, motor, and load argument. -/
theorem c4_clamping_invariants_witness :
    (0 ≤ (emit_record (get_base_specs "FAN") zeroEnv "M" 0
        ⟨.HEALTHY, 9, 0, 0, none⟩ zeroRng).1.load_pct ∧
     (emit_record (get_base_specs "FAN") zeroEnv "M" 0
        ⟨.HEALTHY, 9, 0, 0, none⟩ zeroRng).1.load_pct ≤ 100) ∧
    0 ≤ (emit_record (get_base_specs "FAN") zeroEnv "M" 0
        ⟨.HEALTHY, 9, 0, 0, none⟩ zeroRng).1.speed_rpm ∧
    (0 ≤ (emit_record (get_base_specs "FAN") zeroEnv "M" 0
        ⟨.HEALTHY, 9, 0, 0, none⟩ zeroRng).1.degradation_level ∧
     (emit_record (get_base_specs "FAN") zeroEnv "M" 0
        ⟨.HEALTHY, 9, 0, 0, none⟩ zeroRng).1.degradation_level ≤ 100) ∧
    (0 ≤ ((Motor.initDefault "W4").set_load 7).current_load ∧
     ((Motor.initDefault "W4").set_load 7).current_load ≤ 1) ∧
    ((Motor.initDefault "W4").is_running = true →
      0 ≤ ((Motor.initDefault "W4").simulate_cycle zeroRng).1.speed) :=
  c4_clamping_invariants (get_base_specs "FAN") zeroEnv "M" 0
    ⟨.HEALTHY, 9, 0, 0, none⟩ zeroRng (Motor.initDefault "W4") 7 zeroRng
    (by with_unfolding_all decide)

/-- Counterexample for C4 as stated: the MotorSimulator constructor stores
`initial_load = 1.5` unclamped (a held load value outside `[0, 1]`), and
with a large configured degradation rate a single running cycle reports a
degradation level above 100 (the real-time accumulator is unclamped). -/
theorem c4_unclamped_cex :
    (Motor.init "M4" 1800 45.0 0.5 0.02 0.01 1000 1.5).current_load = 3 / 2 ∧
    ¬ (Motor.init "M4" 1800 45.0 0.5 0.02 0.01 1000 1.5).current_load ≤ 1 ∧
    ((Motor.init "M4" 1800 45.0 0.5 0.02 0.01 1000 1.5).start.get_telemetry
      0 zeroRng).1.degradation_level = 5125 / 4 ∧
    ¬ ((Motor.init "M4" 1800 45.0 0.5 0.02 0.01 1000 1.5).start.get_telemetry
      0 zeroRng).1.degradation_level ≤ 100 := by
  refine ⟨by with_unfolding_all rfl, by with_unfolding_all decide,
    by with_unfolding_all rfl, by with_unfolding_all decide⟩

lemma check_safety_frame (m : Motor) :
    m.check_safety.temperature = m.temperature ∧
    m.check_safety.vibration = m.vibration ∧
    m.check_safety.is_running = m.is_running := by
  unfold Motor.check_safety
  split_ifs <;> simp_all <;> split_ifs <;> simp_all

lemma check_safety_speed_temp_only (m : Motor)
    (h1 : TEMP_THRESHOLD_WARNING < m.temperature)
    (h2 : ¬ VIBRATION_THRESHOLD_WARNING < m.vibration) :
    m.check_safety.speed = max 0 (m.speed - SPEED_REDUCTION_STEP) := by
  unfold Motor.check_safety
  simp only [if_pos h1]
  simp [h2]

lemma check_safety_speed_vib_only (m : Motor)
    (h1 : ¬ TEMP_THRESHOLD_WARNING < m.temperature)
    (h2 : VIBRATION_THRESHOLD_WARNING < m.vibration) :
    m.check_safety.speed = max 0 (m.speed - SPEED_REDUCTION_STEP) := by
  unfold Motor.check_safety
  simp only [if_neg h1]
  simp [h2]

lemma check_safety_speed_both (m : Motor)
    (h1 : TEMP_THRESHOLD_WARNING < m.temperature)
    (h2 : VIBRATION_THRESHOLD_WARNING < m.vibration) :
    m.check_safety.speed
      = max 0 (max 0 (m.speed - SPEED_REDUCTION_STEP) - SPEED_REDUCTION_STEP) := by
  unfold Motor.check_safety
  simp only [if_pos h1]
  simp [h2]

lemma cycle_mid_is_running (m : Motor) (g : Rng) :
    (m.cycle_mid g).1.is_running = m.is_running := rfl

/-- C7 (amended): in a running simulation cycle, when after the physics
update exactly one of the two safety thresholds (temperature above 80,
vibration above 5.0) is exceeded, the new speed is the floored unthrottled
target reduced by exactly one 200 rpm step (floored at 0); when both
thresholds are exceeded the reduction is two steps (400 rpm); and the
telemetry packet of a running read carries status RUNNING (the real-time
path never emits a CRITICAL classification). -/
theorem c7_throttle_step (m : Motor) (g : Rng) (t : ℤ)
    (hr : m.is_running = true) :
    (TEMP_THRESHOLD_WARNING < (m.simulate_cycle g).1.temperature →
      ¬ VIBRATION_THRESHOLD_WARNING < (m.simulate_cycle g).1.vibration →
      (m.simulate_cycle g).1.speed
        = max 0 (max 0 (unthrottled_target m g) - SPEED_REDUCTION_STEP)) ∧
    (¬ TEMP_THRESHOLD_WARNING < (m.simulate_cycle g).1.temperature →
      VIBRATION_THRESHOLD_WARNING < (m.simulate_cycle g).1.vibration →
      (m.simulate_cycle g).1.speed
        = max 0 (max 0 (unthrottled_target m g) - SPEED_REDUCTION_STEP)) ∧
    (TEMP_THRESHOLD_WARNING < (m.simulate_cycle g).1.temperature →
      VIBRATION_THRESHOLD_WARNING < (m.simulate_cycle g).1.vibration →
      (m.simulate_cycle g).1.speed
        = max 0 (max 0 (max 0 (unthrottled_target m g) - SPEED_REDUCTION_STEP)
            - SPEED_REDUCTION_STEP)) ∧
    (m.get_telemetry t g).1.status = "RUNNING" ∧
    TEMP_THRESHOLD_WARNING = 80 ∧ VIBRATION_THRESHOLD_WARNING = 5 ∧
    SPEED_REDUCTION_STEP = 200 := by
  have hsim : (m.simulate_cycle g).1 = ((m.cycle_mid g).1).check_safety := by
    simp [Motor.simulate_cycle, hr]
  have hf := check_safety_frame (m.cycle_mid g).1
  refine ⟨?_, ?_, ?_, ?_, by norm_num [TEMP_THRESHOLD_WARNING],
    by norm_num [VIBRATION_THRESHOLD_WARNING], rfl⟩
  · intro h1 h2
    rw [hsim, hf.1] at h1
    rw [hsim, hf.2.1] at h2
    rw [hsim, check_safety_speed_temp_only _ h1 h2, cycle_mid_speed]
  · intro h1 h2
    rw [hsim, hf.1] at h1
    rw [hsim, hf.2.1] at h2
    rw [hsim, check_safety_speed_vib_only _ h1 h2, cycle_mid_speed]
  · intro h1 h2
    rw [hsim, hf.1] at h1
    rw [hsim, hf.2.1] at h2
    rw [hsim, check_safety_speed_both _ h1 h2, cycle_mid_speed]
  · have hrun : (m.simulate_cycle g).1.is_running = true := by
      rw [hsim, hf.2.2, cycle_mid_is_running, hr]
    simp [Motor.get_telemetry, hrun]

/-- Witness for C7 on a concrete running motor whose single cycle trips
only the temperature threshold. -/
theorem c7_throttle_step_witness :
    TEMP_THRESHOLD_WARNING
      < (((Motor.init "W7" 1800 95.0 0.5 0.02 0.01 0.0005 0.8).start.simulate_cycle
          zeroRng).1).temperature ∧
    ¬ VIBRATION_THRESHOLD_WARNING
      < (((Motor.init "W7" 1800 95.0 0.5 0.02 0.01 0.0005 0.8).start.simulate_cycle
          zeroRng).1).vibration ∧
    ((Motor.init "W7" 1800 95.0 0.5 0.02 0.01 0.0005 0.8).start.simulate_cycle
        zeroRng).1.speed
      = max 0 (max 0 (unthrottled_target
          (Motor.init "W7" 1800 95.0 0.5 0.02 0.01 0.0005 0.8).start zeroRng)
          - SPEED_REDUCTION_STEP) ∧
    (((Motor.init "W7" 1800 95.0 0.5 0.02 0.01 0.0005 0.8).start.get_telemetry
        0 zeroRng).1).status = "RUNNING" := by
  have h1 : TEMP_THRESHOLD_WARNING
      < (((Motor.init "W7" 1800 95.0 0.5 0.02 0.01 0.0005 0.8).start.simulate_cycle
          zeroRng).1).temperature := by with_unfolding_all decide
  have h2 : ¬ VIBRATION_THRESHOLD_WARNING
      < (((Motor.init "W7" 1800 95.0 0.5 0.02 0.01 0.0005 0.8).start.simulate_cycle
          zeroRng).1).vibration := by with_unfolding_all decide
  have h := c7_throttle_step
    (Motor.init "W7" 1800 95.0 0.5 0.02 0.01 0.0005 0.8).start zeroRng 0 rfl
  exact ⟨h1, h2, h.1 h1 h2, h.2.2.2.1⟩

/-- Counterexample for C7 as stated: a running cycle that trips both
thresholds reduces the speed by 400 rpm, not by exactly the single 200 rpm
step, and the telemetry packet of the cycle is labelled RUNNING, never
CRITICAL. -/
theorem c7_double_throttle_cex :
    80 < ((Motor.init "M7" 1800 45.0 0.5 0.02 0.01 10 0.8).start.simulate_cycle
        zeroRng).1.temperature ∧
    5 < ((Motor.init "M7" 1800 45.0 0.5 0.02 0.01 10 0.8).start.simulate_cycle
        zeroRng).1.vibration ∧
    unthrottled_target (Motor.init "M7" 1800 45.0 0.5 0.02 0.01 10 0.8).start
        zeroRng = 1734 ∧
    ((Motor.init "M7" 1800 45.0 0.5 0.02 0.01 10 0.8).start.simulate_cycle
        zeroRng).1.speed = 1334 ∧
    ¬ ((Motor.init "M7" 1800 45.0 0.5 0.02 0.01 10 0.8).start.simulate_cycle
        zeroRng).1.speed = 1734 - 200 ∧
    ((Motor.init "M7" 1800 45.0 0.5 0.02 0.01 10 0.8).start.get_telemetry
        0 zeroRng).1.status = "RUNNING" ∧
    ¬ ((Motor.init "M7" 1800 45.0 0.5 0.02 0.01 10 0.8).start.get_telemetry
        0 zeroRng).1.status = "CRITICAL" := by
  refine ⟨by with_unfolding_all decide, by with_unfolding_all decide,
    by with_unfolding_all rfl, by with_unfolding_all rfl,
    by with_unfolding_all decide, by with_unfolding_all rfl,
    by with_unfolding_all decide⟩

lemma foldl_inv {α β : Type} (P : β → Prop) (f : β → α → β)
    (hstep : ∀ b a, P b → P (f b a)) :
    ∀ (l : List α) (b : β), P b → P (l.foldl f b) := by
  intro l
  induction l with
  | nil => intro b hb; simpa using hb
  | cons a l ih => intro b hb; exact ih _ (hstep b a hb)

lemma flush_batch_fail (fails : ℕ → Bool) (db : SinkState)
    (buffer : List SeedRecord) (h : fails db.flush_attempts = true) :
    flush_batch fails db buffer
      = ({ db with flush_attempts := db.flush_attempts + 1,
                   failed_flushes := db.failed_flushes + 1 }, buffer) := by
  simp [flush_batch, h]

lemma flush_batch_inv (fails : ℕ → Bool) (db : SinkState)
    (buffer : List SeedRecord) :
    (flush_batch fails db buffer).1.committed ++ (flush_batch fails db buffer).2
      = db.committed ++ buffer := by
  unfold flush_batch
  split_ifs <;> simp

lemma asset_tick_inv (cfg : SeedConfig) (fails : ℕ → Bool) (env : Env)
    (mid : String) (specs : Specs) (st : AssetState × ℤ × BatchAcc)
    (h : BatchInv st.2.2) :
    BatchInv (asset_tick cfg fails env mid specs st).2.2 := by
  unfold asset_tick BatchInv
  by_cases hb : cfg.batch_size
      ≤ (st.2.2.buffer ++ [(emit_record specs env mid st.2.1
          (degradation_step (transition_step st.1 st.2.2.g).1
            (transition_step st.1 st.2.2.g).2).1
          (degradation_step (transition_step st.1 st.2.2.g).1
            (transition_step st.1 st.2.2.g).2).2).1]).length
  · simp only [hb, if_pos]
    rw [flush_batch_inv]
    rw [BatchInv] at h
    simp [h]
  · simp only [hb, if_neg, if_false]
    rw [BatchInv] at h
    simp [h]

lemma run_asset_inv (cfg : SeedConfig) (fails : ℕ → Bool) (env : Env)
    (mid : String) (specs : Specs) (start : ℤ) (steps : ℕ)
    (s0 : AssetState) (acc : BatchAcc) (h : BatchInv acc) :
    BatchInv (run_asset cfg fails env mid specs start steps s0 acc) := by
  unfold run_asset
  exact foldl_inv (fun st => BatchInv st.2.2) _
    (fun st _ hst => asset_tick_inv cfg fails env mid specs st hst)
    (List.range steps) (s0, start, acc) h

lemma seed_loop_inv (cfg : SeedConfig) (env : Env) (fails : ℕ → Bool)
    (g0 : Rng) (now : ℤ) : BatchInv (seed_loop cfg env fails g0 now) := by
  unfold seed_loop
  apply foldl_inv BatchInv
  · intro acc idx h
    exact run_asset_inv cfg fails env _ _ _ _ _ _ h
  · simp [BatchInv]

lemma final_flush_no_loss (fails : ℕ → Bool) (acc : BatchAcc)
    (h : BatchInv acc) :
    (final_flush fails acc).emitted
      = (final_flush fails acc).db.committed ++ (final_flush fails acc).leftover := by
  rw [BatchInv] at h
  unfold final_flush
  split_ifs with h1 h2
  · have hb : acc.buffer = [] := by simpa using h1
    simp [h, hb]
  · simpa using h
  · simp [h]

/-- C1 (amended): when an in-loop batch flush fails, the transaction is
rolled back (the committed rows and the inserted-count are unchanged, so
no record of the failed batch is committed) and the buffer is retained
(so no record is silently dropped and the batch is retried at the next
batch-size boundary); however the error is only printed and the run
continues; globally, the emitted trace always equals the committed rows
followed by the records still buffered in memory. -/
theorem c1_batch_flush_rollback_no_loss (cfg : SeedConfig) (env : Env)
    (fails : ℕ → Bool) (g0 : Rng) (now : ℤ) (db : SinkState)
    (buffer : List SeedRecord) (h : fails db.flush_attempts = true) :
    (flush_batch fails db buffer).1.committed = db.committed ∧
    (flush_batch fails db buffer).1.total_inserted = db.total_inserted ∧
    (flush_batch fails db buffer).2 = buffer ∧
    (flush_batch fails db buffer).1.failed_flushes = db.failed_flushes + 1 ∧
    (generate_lifecycle_data cfg env fails g0 now).emitted
      = (generate_lifecycle_data cfg env fails g0 now).db.committed
        ++ (generate_lifecycle_data cfg env fails g0 now).leftover := by
  rw [flush_batch_fail fails db buffer h]
  refine ⟨rfl, rfl, rfl, rfl, ?_⟩
  unfold generate_lifecycle_data
  exact final_flush_no_loss fails _ (seed_loop_inv cfg env fails g0 now)

/-- Witness for C1 on a concrete sink state whose next flush attempt
fails, and a concrete one-asset run. -/
theorem c1_batch_flush_rollback_no_loss_witness :
    (flush_batch failFirst ⟨[], 0, 0, 0⟩ []).1.committed = [] ∧
    (flush_batch failFirst ⟨[], 0, 0, 0⟩ []).1.total_inserted = 0 ∧
    (flush_batch failFirst ⟨[], 0, 0, 0⟩ []).2 = [] ∧
    (flush_batch failFirst ⟨[], 0, 0, 0⟩ []).1.failed_flushes = 0 + 1 ∧
    (generate_lifecycle_data ⟨1, 1, 120, 3⟩ zeroEnv failFirst zeroRng 1440).emitted
      = (generate_lifecycle_data ⟨1, 1, 120, 3⟩ zeroEnv failFirst zeroRng 1440).db.committed
        ++ (generate_lifecycle_data ⟨1, 1, 120, 3⟩ zeroEnv failFirst zeroRng 1440).leftover :=
  c1_batch_flush_rollback_no_loss ⟨1, 1, 120, 3⟩ zeroEnv failFirst zeroRng
    1440 ⟨[], 0, 0, 0⟩ [] rfl

/-- Counterexample for C1 as stated: in a one-asset, 12-tick run with
batch size 3 whose first flush attempt fails, the failed flush is printed
and rolled back but the run is not halted: all 12 records end up
committed (the failed batch is retried at the next boundary) and the run
finishes normally. -/
theorem c1_flush_failure_run_continues_cex :
    (generate_lifecycle_data ⟨1, 1, 120, 3⟩ zeroEnv failFirst zeroRng
        1440).db.failed_flushes = 1 ∧
    (generate_lifecycle_data ⟨1, 1, 120, 3⟩ zeroEnv failFirst zeroRng
        1440).db.committed.length = 12 ∧
    (generate_lifecycle_data ⟨1, 1, 120, 3⟩ zeroEnv failFirst zeroRng
        1440).db.total_inserted = 12 ∧
    (generate_lifecycle_data ⟨1, 1, 120, 3⟩ zeroEnv failFirst zeroRng
        1440).leftover = [] ∧
    (generate_lifecycle_data ⟨1, 1, 120, 3⟩ zeroEnv failFirst zeroRng
        1440).crashed = false := by
  refine ⟨by with_unfolding_all rfl, by with_unfolding_all rfl,
    by with_unfolding_all rfl, by with_unfolding_all rfl,
    by with_unfolding_all rfl⟩

/-- C2: evaluation of the status vocabularies of the two persistence
paths.  The bulk generator's classifier only ever produces one of the
four labels NORMAL / WARNING / CRITICAL / MAINTENANCE, but the real-time
stepper persists packets whose status field is the string RUNNING (or
STOPPED), which is outside that set: the first record persisted by
`run_simulation` carries status RUNNING, and in fact every record of the
run does. -/
theorem c2_realtime_status_outside_labels :
    (∀ (s : AssetState) (tv vv : ℚ),
      status_label s tv vv ∈ ["NORMAL", "WARNING", "CRITICAL", "MAINTENANCE"]) ∧
    ((run_simulation zeroRng 0).map Telemetry.status).head? = some "RUNNING" ∧
    ((run_simulation zeroRng 0).map Telemetry.status).all
      (fun l => l == "RUNNING") = true ∧
    (run_simulation zeroRng 0).length = 20 ∧
    "RUNNING" ∉ ["NORMAL", "WARNING", "CRITICAL", "MAINTENANCE"] := by
  refine ⟨?_, by with_unfolding_all rfl, by with_unfolding_all rfl,
    by with_unfolding_all rfl, by with_unfolding_all decide⟩
  intro s tv vv
  unfold status_label
  split_ifs <;> simp

/-- Counterexample for C3 as stated: the same random stream, environment
and configuration started at two different wall-clock instants (the code
derives its start date from `datetime.now()`) produce different record
sequences - already the first timestamps differ. -/
theorem c3_same_seed_different_start_cex :
    (generate_lifecycle_data ⟨1, 1, 720, 5000⟩ zeroEnv neverFails zeroRng
        1440).emitted.map SeedRecord.timestamp = [0, 720] ∧
    (generate_lifecycle_data ⟨1, 1, 720, 5000⟩ zeroEnv neverFails zeroRng
        1500).emitted.map SeedRecord.timestamp = [60, 780] ∧
    (generate_lifecycle_data ⟨1, 1, 720, 5000⟩ zeroEnv neverFails zeroRng
        1440).emitted
      ≠ (generate_lifecycle_data ⟨1, 1, 720, 5000⟩ zeroEnv neverFails zeroRng
        1500).emitted := by
  refine ⟨by with_unfolding_all rfl, by with_unfolding_all rfl,
    by with_unfolding_all decide⟩

/-- C3 (amended): bulk generation is a pure function of the
configuration, the environment, the storage oracle, the random stream and
the wall-clock start instant: two runs agreeing on all five (same seed
and configuration AND same `datetime.now()`) produce identical output,
records and sink state alike. -/
theorem c3_deterministic_given_seed_and_start (cfg₁ cfg₂ : SeedConfig)
    (env₁ env₂ : Env) (f₁ f₂ : ℕ → Bool) (g₁ g₂ : Rng) (now₁ now₂ : ℤ)
    (hcfg : cfg₁ = cfg₂) (henv : env₁ = env₂) (hf : f₁ = f₂)
    (hg : g₁ = g₂) (hnow : now₁ = now₂) :
    generate_lifecycle_data cfg₁ env₁ f₁ g₁ now₁
      = generate_lifecycle_data cfg₂ env₂ f₂ g₂ now₂ := by
  rw [hcfg, henv, hf, hg, hnow]

/-- Witness for C3 on concrete equal inputs. -/
theorem c3_deterministic_given_seed_and_start_witness :
    generate_lifecycle_data ⟨1, 1, 720, 5000⟩ zeroEnv neverFails zeroRng 1440
      = generate_lifecycle_data ⟨1, 1, 720, 5000⟩ zeroEnv neverFails zeroRng 1440 :=
  c3_deterministic_given_seed_and_start ⟨1, 1, 720, 5000⟩ ⟨1, 1, 720, 5000⟩
    zeroEnv zeroEnv neverFails neverFails zeroRng zeroRng 1440 1440
    rfl rfl rfl rfl rfl
